import Mathlib

/-!
Shallow embedding of `HooRAGLib.Models.OpenAI.OpenAILLM`
(file `src/HooRAGLib/Models/OpenAI.py`) together with the collaborator
shapes it touches (`BaseRetriever`, the OpenAI chat/models endpoints).

Modelling decisions, all taken from the Python source:
* A Python attribute that can be absent (`hasattr`) or `None` or a real
  object is modelled as `Option (Option _)`: the outer layer is attribute
  presence (what `hasattr` observes), the inner layer is `None` versus an
  object.  `OpenAILLM.__init__` always sets `self.retriever = None`, i.e.
  `retrieverAttr = some none`.
* Python exceptions become an explicit error type `PyError`; a method that
  mutates `self` and may raise returns the mutated state next to an
  `Except` outcome, because a raise in CPython does not roll back earlier
  attribute assignments.
* The provider is a parameter: `ProviderEnv` for construction (whether the
  key is accepted, which model ids `models.list()` returns) and a function
  `chat : GenRequest → ChatResult` for `chat.completions.create`.
  `generate` additionally returns the request it sent (`none` when it
  raised before calling the provider), so that "no network call was made"
  is a statement of the model.
* `kwargs` dictionaries are association lists `List (String × Option String)`
  (a value is a string or Python `None`); lookup is first-match, which
  agrees with a dict since keys are unique in every call site we model.
-/

namespace HooRAGLib

/-- The errors the modelled code can signal: Python `ValueError`,
`TypeError`, `AttributeError` and the library's own `EmbeddingError`
(`src/HooRAGLib/Helpers/Errors.py`). -/
inductive PyError where
  | valueError (msg : String)
  | typeError (msg : String)
  | attributeError (msg : String)
  | embeddingError (msg : String)
  deriving Repr, DecidableEq

/-- A retriever object as the wrapper observes it (`BaseRetriever`
collaborators): its class name, whether `isinstance(·, BaseRetriever)`
holds, what `has_embedding()` reports, what `retrieve(query)` returns,
and what `embed(client)` does (`.error msg` models a raise whose `str`
is `msg`, `.ok data` models returning a dict whose `data` entry is the
payload). -/
structure Retriever where
  className : String
  isBaseRetriever : Bool
  hasEmbedding : Bool
  retrieve : String → String
  embedData : Except String String

/-- The wrapper's mutable attributes after `__init__`
(`OpenAILLM.__init__`, lines 58–64): `hasClient`/`hasModels` record
attribute presence for `_check_client`; `modelsData` is the id list of
`self.models.data`; `retrieverAttr` is the three-state retriever
attribute. -/
structure WrapperState where
  hasClient : Bool
  hasModels : Bool
  modelsData : List String
  modelName : String
  modelVersion : Option String
  systemPrompt : Option String
  retrieverAttr : Option (Option Retriever)

/-- The provider as seen at construction: whether `OpenAI(api_key=k)` +
`client.models.list()` succeeds for a key, and which model ids the list
call returns. -/
structure ProviderEnv where
  authOk : String → Bool
  modelIds : List String

/-- Line 47 of the source: `os.environ.get('OPENAI_API_KEY') if 'api_key'
not in kwargs else kwargs.get('api_key')`.  `kwargsApiKey = some v` means
the `api_key` keyword was passed with value `v` (possibly `None`). -/
def resolveApiKey (kwargsApiKey : Option (Option String))
    (envApiKey : Option String) : Option String :=
  match kwargsApiKey with
  | none => envApiKey
  | some v => v

/-- `OpenAILLM.__init__` (lines 32–64): resolve the key, reject a falsy
key (`None` or the empty string) with `ValueError`; then line 53 calls
`OpenAI(api_key=API_KEY, **kwargs)` — when the caller passed `api_key`
explicitly it is still inside `kwargs`, so CPython raises a
duplicate-keyword `TypeError` that the `except AuthenticationError`
clause does not catch, before any provider interaction.  Only the
environment-variable path reaches the provider, where an
`AuthenticationError` is converted into `ValueError`; on success the
initial state is built. -/
def init (modelName : String) (kwargsApiKey : Option (Option String))
    (envApiKey : Option String) (env : ProviderEnv) : Except PyError WrapperState :=
  match resolveApiKey kwargsApiKey envApiKey with
  | none => .error (.valueError "OPENAI_API_KEY environment variable is not set.")
  | some k =>
    if k = "" then .error (.valueError "OPENAI_API_KEY environment variable is not set.")
    else
      match kwargsApiKey with
      | some _ =>
        .error (.typeError "OpenAI.__init__() got multiple values for keyword argument 'api_key'")
      | none =>
        if env.authOk k then
          .ok { hasClient := true, hasModels := true, modelsData := env.modelIds,
                modelName := modelName, modelVersion := none, systemPrompt := none,
                retrieverAttr := some none }
        else .error (.valueError "Invalid OpenAI API key provided.")

/-- `OpenAILLM._check_client` (lines 214–222): raises only when *both*
the `client` and the `models` attributes are absent (the source uses
`and`, not `or`). -/
def checkClient (s : WrapperState) : Except PyError Unit :=
  if !s.hasClient && !s.hasModels then
    .error (.valueError "OpenAI client is not initialized.")
  else .ok ()

/-- `OpenAILLM._check_retriever` (lines 224–232): raises only when the
`retriever` *attribute* is absent (`hasattr`), not when its value is
`None`. -/
def checkRetriever (s : WrapperState) : Except PyError Unit :=
  match s.retrieverAttr with
  | none => .error (.valueError "Retriever is not set. Please configure the retriever before embedding.")
  | some _ => .ok ()

/-- `OpenAILLM._check_embeddings` (lines 234–245): `_check_retriever`,
then `self.retriever.has_embedding()` — which is an `AttributeError`
when the attribute's value is `None`, and an `EmbeddingError` when the
retriever reports no embeddings. -/
def checkEmbeddings (s : WrapperState) : Except PyError Unit :=
  match checkRetriever s with
  | .error e => .error e
  | .ok () =>
    match s.retrieverAttr with
    | none => .error (.valueError "Retriever is not set. Please configure the retriever before embedding.")
    | some none => .error (.attributeError "'NoneType' object has no attribute 'has_embedding'")
    | some (some r) =>
      if r.hasEmbedding then .ok ()
      else .error (.embeddingError "Embeddings have not been generated. Please call the embed() method first.")

/-- `self.retriever.__class__.__name__` with `None.__class__.__name__`
being `NoneType`. -/
def retrieverClassName : Option Retriever → String
  | none => "NoneType"
  | some r => r.className

/-- The dict returned by `configure` (lines 101–106). -/
structure ConfigResponse where
  status : Bool
  message : String
  modelVersion : Option String
  retrieverName : String

/-- `OpenAILLM.configure` (lines 66–106).  Returns the state as CPython
leaves it (assignments before a raise stick) next to the outcome.
Order of the source: client check, empty-version check,
membership check, **then** `self.model_version := …`,
`self.system_prompt := …`, and only after those the retriever
`isinstance` check and `self.retriever := …`. -/
def configure (s : WrapperState) (modelVersion : String)
    (systemPrompt : Option String) (retriever : Option Retriever) :
    WrapperState × Except PyError ConfigResponse :=
  match checkClient s with
  | .error e => (s, .error e)
  | .ok () =>
    if modelVersion = "" then
      (s, .error (.valueError "Model version must be specified."))
    else if modelVersion ∉ s.modelsData then
      (s, .error (.valueError ("Model version '" ++ modelVersion ++ "' is not available as an OpenAI models.")))
    else
      let s2 : WrapperState := { s with modelVersion := some modelVersion, systemPrompt := systemPrompt }
      match retriever with
      | some r =>
        if !r.isBaseRetriever then
          (s2, .error (.typeError "Retriever must be an instance of BaseRetriever."))
        else
          ({ s2 with retrieverAttr := some retriever },
           .ok { status := true,
                 message := "OpenAI model '" ++ s.modelName ++ "' configured successfully.",
                 modelVersion := some modelVersion,
                 retrieverName := retrieverClassName retriever })
      | none =>
        ({ s2 with retrieverAttr := some none },
         .ok { status := true,
               message := "OpenAI model '" ++ s.modelName ++ "' configured successfully.",
               modelVersion := some modelVersion,
               retrieverName := retrieverClassName none })

/-- The dict returned by `embed` (lines 129–134). -/
structure EmbedResponse where
  status : Bool
  message : String
  embeddings : String
  model : String

/-- `OpenAILLM.embed` (lines 108–136): client check, retriever-attribute
check, then `self.retriever.embed(client=self.client)` inside a
`try/except Exception` that rewraps any exception — including the
`AttributeError` from calling `.embed` on `None` — as `EmbeddingError`. -/
def embed (s : WrapperState) : Except PyError EmbedResponse :=
  match checkClient s with
  | .error e => .error e
  | .ok () =>
    match checkRetriever s with
    | .error e => .error e
    | .ok () =>
      match s.retrieverAttr with
      | none => .error (.valueError "Retriever is not set. Please configure the retriever before embedding.")
      | some none =>
        .error (.embeddingError "Failed to generate embeddings: 'NoneType' object has no attribute 'embed'")
      | some (some r) =>
        match r.embedData with
        | .error msg => .error (.embeddingError ("Failed to generate embeddings: " ++ msg))
        | .ok data =>
          .ok { status := true, message := "Embeddings generated successfully.",
                embeddings := data, model := s.modelName }

/-- One role-tagged message of the request (`content` is `none` when the
Python value is `None`). -/
structure Message where
  role : String
  content : Option String
  deriving Repr, DecidableEq

/-- Additional keyword options of a `generate` call. -/
def Kwargs := List (String × Option String)

/-- `kwargs.get(key, default)` on our association-list dicts. -/
def kwGetD (kwargs : Kwargs) (key : String) (dflt : Option String) : Option String :=
  match List.lookup key kwargs with
  | none => dflt
  | some v => v

/-- The system-message content expression of `generate` (lines 174 and
194): `self.system_prompt if 'system_prompt' not in kwargs else
kwargs.get('system_prompt', 'You are a helpful assistant.')`. -/
def systemContent (stored : Option String) (kwargs : Kwargs) : Option String :=
  if (List.lookup "system_prompt" kwargs).isNone then stored
  else kwGetD kwargs "system_prompt" (some "You are a helpful assistant.")

/-- The request handed to `chat.completions.create`. -/
structure GenRequest where
  model : Option String
  messages : List Message
  maxTokens : Nat
  kwargs : Kwargs

/-- `choice.message` of a provider completion. -/
structure ChoiceMessage where
  content : String

/-- One completion choice of the provider response. -/
structure Choice where
  message : ChoiceMessage

/-- The provider's reported token usage. -/
structure Usage where
  promptTokens : Nat
  completionTokens : Nat
  totalTokens : Nat
  deriving Repr, DecidableEq

/-- The provider response to one chat-completions call. -/
structure ChatResult where
  choices : List Choice
  usage : Usage

/-- The dict returned by `generate` (lines 206–212). -/
structure GenResponse where
  status : Bool
  message : String
  choices : List String
  model : String
  usage : Usage

/-- Normalization of the provider response (lines 206–212):
`choices := [choice.message.content for choice in response.choices]`. -/
def mkGenResponse (s : WrapperState) (res : ChatResult) : GenResponse :=
  { status := true, message := "Response generated successfully.",
    choices := res.choices.map (fun c => c.message.content),
    model := s.modelName, usage := res.usage }

/-- `OpenAILLM.generate` (lines 138–212).  `chat` is the provider's
`chat.completions.create`; the second component of the result is the
request actually sent (`none` = the call raised before any provider
call, so no message list was built either). -/
def generate (s : WrapperState) (chat : GenRequest → ChatResult)
    (userPrompt : String) (isRag : Bool) (maxTokens : Nat) (kwargs : Kwargs) :
    Except PyError GenResponse × Option GenRequest :=
  match checkClient s with
  | .error e => (.error e, none)
  | .ok () =>
    if isRag then
      match checkRetriever s with
      | .error e => (.error e, none)
      | .ok () =>
        match checkEmbeddings s with
        | .error e => (.error e, none)
        | .ok () =>
          match s.retrieverAttr with
          | some (some r) =>
            let req : GenRequest :=
              { model := s.modelVersion,
                messages :=
                  [ { role := "system", content := systemContent s.systemPrompt kwargs },
                    { role := "user", content := some userPrompt },
                    { role := "assistant", content := some (r.retrieve userPrompt) } ],
                maxTokens := maxTokens, kwargs := kwargs }
            (.ok (mkGenResponse s (chat req)), some req)
          | _ =>
            (.error (.attributeError "'NoneType' object has no attribute 'retrieve'"), none)
    else
      let req : GenRequest :=
        { model := s.modelVersion,
          messages :=
            [ { role := "system", content := systemContent s.systemPrompt kwargs },
              { role := "user", content := some userPrompt } ],
          maxTokens := maxTokens, kwargs := kwargs }
      (.ok (mkGenResponse s (chat req)), some req)

/-! ### Concrete fixtures

Mirroring the test suite's mocks (`tests/models/test_OpenAI.py`): a
provider that accepts any key and lists `gpt-3.5-turbo` and `gpt-4`, a
provider that rejects every key, the state right after a successful
construction, a previously configured state, and sample retrievers. -/

/-- Provider accepting every key, listing two models. -/
def env0 : ProviderEnv :=
  { authOk := fun _ => true, modelIds := ["gpt-3.5-turbo", "gpt-4"] }

/-- Provider rejecting every key. -/
def envReject : ProviderEnv :=
  { authOk := fun _ => false, modelIds := [] }

/-- The wrapper state right after a successful `__init__` against `env0`. -/
def s0 : WrapperState :=
  { hasClient := true, hasModels := true,
    modelsData := ["gpt-3.5-turbo", "gpt-4"], modelName := "test-model",
    modelVersion := none, systemPrompt := none, retrieverAttr := some none }

/-- A state previously configured with a model version and a system
prompt (retriever still `None`). -/
def sPrior : WrapperState :=
  { s0 with modelVersion := some "gpt-3.5-turbo", systemPrompt := some "old-prompt" }

/-- An object that does not satisfy `isinstance(·, BaseRetriever)`. -/
def badRet : Retriever :=
  { className := "NotARetriever", isBaseRetriever := false, hasEmbedding := false,
    retrieve := fun _ => "", embedData := .error "boom" }

/-- A proper retriever whose embeddings have been generated. -/
def goodRet : Retriever :=
  { className := "MockRetriever", isBaseRetriever := true, hasEmbedding := true,
    retrieve := fun q => "context for " ++ q, embedData := .ok "embedding-data" }

/-- A proper retriever that has not generated embeddings yet. -/
def noEmbRet : Retriever :=
  { goodRet with hasEmbedding := false }

/-- `sPrior` with the retriever set and embeddings ready. -/
def sReady : WrapperState :=
  { sPrior with retrieverAttr := some (some goodRet) }

/-- `sPrior` with the retriever set but no embeddings yet. -/
def sNoEmb : WrapperState :=
  { sPrior with retrieverAttr := some (some noEmbRet) }

/-- A provider chat endpoint returning no completions. -/
def chat0 : GenRequest → ChatResult :=
  fun _ => { choices := [], usage := { promptTokens := 0, completionTokens := 0, totalTokens := 0 } }

/-! ### Shared lemmas -/

/-- The system-content expression selects the kwargs value when the key
is present (so the literal default in `kwargs.get` is dead), and the
stored prompt otherwise. -/
theorem systemContent_eq (stored : Option String) (kwargs : Kwargs) :
    systemContent stored kwargs =
      match List.lookup "system_prompt" kwargs with
      | some v => v
      | none => stored := by
  unfold systemContent kwGetD
  cases List.lookup "system_prompt" kwargs <;> simp

/-- Every request `generate` actually sends carries the system message
first, the caller's kwargs verbatim, the given token bound and the
stored model version. -/
theorem generate_req_shape (s : WrapperState) (chat : GenRequest → ChatResult)
    (userPrompt : String) (isRag : Bool) (maxTokens : Nat) (kwargs : Kwargs)
    (req : GenRequest)
    (hreq : (generate s chat userPrompt isRag maxTokens kwargs).2 = some req) :
    req.messages.head? = some { role := "system", content := systemContent s.systemPrompt kwargs } ∧
    req.kwargs = kwargs ∧ req.maxTokens = maxTokens ∧ req.model = s.modelVersion := by
  unfold generate at hreq
  cases hc : checkClient s with
  | error e => rw [hc] at hreq; simp at hreq
  | ok u =>
    rw [hc] at hreq
    cases isRag with
    | false =>
      simp at hreq
      subst hreq
      exact ⟨rfl, rfl, rfl, rfl⟩
    | true =>
      simp only [if_true] at hreq
      cases hr : checkRetriever s with
      | error e => rw [hr] at hreq; simp at hreq
      | ok v =>
        rw [hr] at hreq
        cases he : checkEmbeddings s with
        | error e => rw [he] at hreq; simp at hreq
        | ok w =>
          rw [he] at hreq
          cases hra : s.retrieverAttr with
          | none => rw [hra] at hreq; simp at hreq
          | some or =>
            cases or with
            | none => rw [hra] at hreq; simp at hreq
            | some r =>
              rw [hra] at hreq
              simp at hreq
              subst hreq
              exact ⟨rfl, rfl, rfl, rfl⟩

/-! ### Claims -/

/-- C1: on a freshly constructed wrapper (credential from the
environment variable — the only construction path that can succeed —
and the retriever attribute set to `None` by `__init__`),
`generate(is_rag=True)` does **not** raise the documented ValueError:
`_check_retriever`'s `hasattr` test passes, so `_check_embeddings`
dereferences `None` and raises `AttributeError`; and `embed()` wraps
the same dereference failure into `EmbeddingError` instead of the
documented retriever-not-set ValueError. -/
theorem C1_unset_retriever_behavior :
    init "test-model" none (some "test-key") env0 = .ok s0 ∧
    checkRetriever s0 = .ok () ∧
    (generate s0 chat0 "hi" true 10 []).1 =
      .error (.attributeError "'NoneType' object has no attribute 'has_embedding'") ∧
    embed s0 =
      .error (.embeddingError "Failed to generate embeddings: 'NoneType' object has no attribute 'embed'") :=
  ⟨rfl, rfl, rfl, rfl⟩

/-- C3 (claim as stated is false on the code): a credential rejected by
the provider and a missing credential both surface as the *same* error
kind, `ValueError` — `__init__` catches the provider's
`AuthenticationError` and re-raises `ValueError`, contradicting its own
docstring (`:raises AuthenticationError: If the provided API key is
invalid.`).  The provider is only ever reached on the
environment-variable path (an explicit `api_key` parameter dies earlier
with the duplicate-keyword `TypeError`, third conjunct); the two
credential failures differ only in message text. -/
theorem C3_rejected_credential_is_valueerror :
    init "test-model" none none env0 =
      .error (.valueError "OPENAI_API_KEY environment variable is not set.") ∧
    init "test-model" none (some "bad-key") envReject =
      .error (.valueError "Invalid OpenAI API key provided.") ∧
    init "test-model" (some (some "bad-key")) none envReject =
      .error (.typeError "OpenAI.__init__() got multiple values for keyword argument 'api_key'") :=
  ⟨rfl, rfl, rfl⟩

/-- C10: every successful construction yields a state with `client`,
`models` and `model_name` set, the three configurables `None`, and in
particular the `_check_client` branch can never fire on it. -/
theorem C10_init_invariant (modelName : String) (kwargsApiKey : Option (Option String))
    (envApiKey : Option String) (env : ProviderEnv) (s : WrapperState)
    (h : init modelName kwargsApiKey envApiKey env = .ok s) :
    s.hasClient = true ∧ s.hasModels = true ∧ s.modelName = modelName ∧
    s.modelsData = env.modelIds ∧ s.modelVersion = none ∧ s.systemPrompt = none ∧
    s.retrieverAttr = some none ∧ checkClient s = .ok () := by
  unfold init at h
  cases hk : resolveApiKey kwargsApiKey envApiKey with
  | none => rw [hk] at h; simp at h
  | some k =>
    rw [hk] at h
    dsimp only at h
    by_cases hke : k = ""
    · simp [hke] at h
    · rw [if_neg hke] at h
      cases kwargsApiKey with
      | some v => simp at h
      | none =>
        dsimp only at h
        by_cases ha : env.authOk k
        · rw [if_pos ha] at h
          cases h
          exact ⟨rfl, rfl, rfl, rfl, rfl, rfl, rfl, rfl⟩
        · simp [ha] at h

/-- Witness for C10 at a concrete construction (environment-variable
credential: the only path on which construction can succeed). -/
theorem C10_init_invariant_witness :
    init "test-model" none (some "test-key") env0 = .ok s0 ∧
    (s0.hasClient = true ∧ s0.hasModels = true ∧ s0.modelName = "test-model" ∧
     s0.modelsData = env0.modelIds ∧ s0.modelVersion = none ∧ s0.systemPrompt = none ∧
     s0.retrieverAttr = some none ∧ checkClient s0 = .ok ()) :=
  ⟨rfl, C10_init_invariant "test-model" none (some "test-key") env0 s0 rfl⟩

/-- C4: for every wrapper with its client attribute present and every
version `x` outside the advertised list, `configure` fails with
`ValueError` whose message contains `x`, and returns the state exactly
as it was. -/
theorem C4_invalid_version_rejected (s : WrapperState) (x : String)
    (systemPrompt : Option String) (retriever : Option Retriever)
    (hclient : s.hasClient = true) (hx : x ∉ s.modelsData) :
    ∃ m, configure s x systemPrompt retriever = (s, .error (.valueError m)) ∧
      ∃ pre post, m = pre ++ x ++ post := by
  by_cases hxe : x = ""
  · refine ⟨"Model version must be specified.", ?_, "Model version must be specified.", "", ?_⟩
    · unfold configure checkClient
      simp [hclient, hxe]
    · subst hxe
      simp
  · refine ⟨"Model version '" ++ x ++ "' is not available as an OpenAI models.", ?_,
      "Model version '", "' is not available as an OpenAI models.", rfl⟩
    unfold configure checkClient
    simp [hclient, hxe, hx]

/-- Witness for C4 at a concrete invalid version. -/
theorem C4_invalid_version_rejected_witness :
    s0.hasClient = true ∧ "bad-model" ∉ s0.modelsData ∧
    (∃ m, configure s0 "bad-model" none none = (s0, .error (.valueError m)) ∧
      ∃ pre post, m = pre ++ "bad-model" ++ post) :=
  ⟨rfl, by decide, C4_invalid_version_rejected s0 "bad-model" none none rfl (by decide)⟩

/-- C2 (claim as stated is false on the code): `configure` rejecting the
retriever with `TypeError` happens *after* `self.model_version` and
`self.system_prompt` were assigned, so the failure leaves those two
fields updated — the update is not atomic. -/
theorem C2_counterexample :
    sPrior.modelVersion = some "gpt-3.5-turbo" ∧
    sPrior.systemPrompt = some "old-prompt" ∧
    (configure sPrior "gpt-4" (some "new-prompt") (some badRet)).2 =
      .error (.typeError "Retriever must be an instance of BaseRetriever.") ∧
    (configure sPrior "gpt-4" (some "new-prompt") (some badRet)).1.modelVersion = some "gpt-4" ∧
    (configure sPrior "gpt-4" (some "new-prompt") (some badRet)).1.systemPrompt = some "new-prompt" :=
  ⟨rfl, rfl, rfl, rfl, rfl⟩

/-- C2 amended: `configure` is atomic for the client check and the two
version validations (state returned unchanged there, see C4), but on a
retriever `TypeError` the state comes back with `modelVersion` and
`systemPrompt` already set to the new values; only the retriever field
keeps its prior value. -/
theorem C2_configure_not_atomic (s : WrapperState) (mv : String)
    (systemPrompt : Option String) (r : Retriever)
    (hclient : s.hasClient = true) (hmv : mv ≠ "") (hmem : mv ∈ s.modelsData)
    (hr : r.isBaseRetriever = false) :
    configure s mv systemPrompt (some r) =
      ({ s with modelVersion := some mv, systemPrompt := systemPrompt },
       .error (.typeError "Retriever must be an instance of BaseRetriever.")) := by
  unfold configure checkClient
  simp [hclient, hmv, hmem, hr]

/-- Witness for the amended C2 at a concrete state. -/
theorem C2_configure_not_atomic_witness :
    sPrior.hasClient = true ∧ "gpt-4" ≠ "" ∧ "gpt-4" ∈ sPrior.modelsData ∧
    badRet.isBaseRetriever = false ∧
    configure sPrior "gpt-4" (some "new-prompt") (some badRet) =
      ({ sPrior with modelVersion := some "gpt-4", systemPrompt := some "new-prompt" },
       .error (.typeError "Retriever must be an instance of BaseRetriever.")) :=
  ⟨rfl, by decide, by decide, rfl,
   C2_configure_not_atomic sPrior "gpt-4" (some "new-prompt") badRet rfl (by decide) (by decide) rfl⟩

/-- The request built by `generate` on `sPrior` with a `system_prompt`
keyword option, `is_rag=False`. -/
def req5 : GenRequest :=
  { model := some "gpt-3.5-turbo",
    messages := [ { role := "system", content := some "kw-prompt" },
                  { role := "user", content := some "hi" } ],
    maxTokens := 10, kwargs := [("system_prompt", some "kw-prompt")] }

/-- C5 (claim as stated is false on the code): with no stored system
prompt and no `system_prompt` option, the system message is sent with
content `None` — the "helpful assistant" default is never substituted
(it sits in a `kwargs.get` default that is only consulted when the key
*is* present, where it cannot apply). -/
theorem C5_counterexample :
    s0.systemPrompt = none ∧
    (generate s0 chat0 "hi" false 10 []).2 =
      some { model := none,
             messages := [ { role := "system", content := none },
                           { role := "user", content := some "hi" } ],
             maxTokens := 10, kwargs := [] } ∧
    (none : Option String) ≠ some "You are a helpful assistant." :=
  ⟨rfl, rfl, by decide⟩

/-- C5 amended: in every request `generate` sends, the system message
content is the `system_prompt` option when that key is supplied (even
if its value is `None`), else the stored system prompt — which may be
`none`, in which case the content is absent; no default is injected. -/
theorem C5_system_message_content (s : WrapperState) (chat : GenRequest → ChatResult)
    (userPrompt : String) (isRag : Bool) (maxTokens : Nat) (kwargs : Kwargs)
    (req : GenRequest)
    (hreq : (generate s chat userPrompt isRag maxTokens kwargs).2 = some req) :
    req.messages.head? =
      some { role := "system",
             content := match List.lookup "system_prompt" kwargs with
                        | some v => v
                        | none => s.systemPrompt } := by
  have h := generate_req_shape s chat userPrompt isRag maxTokens kwargs req hreq
  rw [h.1, systemContent_eq]

/-- Witness for the amended C5 at a concrete call. -/
theorem C5_system_message_content_witness :
    (generate sPrior chat0 "hi" false 10 [("system_prompt", some "kw-prompt")]).2 = some req5 ∧
    req5.messages.head? = some { role := "system", content := some "kw-prompt" } :=
  ⟨rfl, C5_system_message_content sPrior chat0 "hi" false 10
    [("system_prompt", some "kw-prompt")] req5 rfl⟩

/-- C6: with a retriever present but `has_embedding()` false,
`generate(is_rag=True)` fails with the run-embed-first `EmbeddingError`
and the request trace is `none`: no provider call and no message list. -/
theorem C6_generate_before_embed_blocked (s : WrapperState)
    (chat : GenRequest → ChatResult) (userPrompt : String) (maxTokens : Nat)
    (kwargs : Kwargs) (r : Retriever)
    (hclient : s.hasClient = true) (hattr : s.retrieverAttr = some (some r))
    (hemb : r.hasEmbedding = false) :
    generate s chat userPrompt true maxTokens kwargs =
      (.error (.embeddingError "Embeddings have not been generated. Please call the embed() method first."),
       none) := by
  have hc : checkClient s = .ok () := by simp [checkClient, hclient]
  have hr : checkRetriever s = .ok () := by simp [checkRetriever, hattr]
  have he : checkEmbeddings s =
      .error (.embeddingError "Embeddings have not been generated. Please call the embed() method first.") := by
    simp [checkEmbeddings, hr, hattr, hemb]
  unfold generate
  rw [hc, hr, he]
  rfl

/-- Witness for C6 at a concrete state. -/
theorem C6_generate_before_embed_blocked_witness :
    sNoEmb.hasClient = true ∧ sNoEmb.retrieverAttr = some (some noEmbRet) ∧
    noEmbRet.hasEmbedding = false ∧
    generate sNoEmb chat0 "hi" true 10 [] =
      (.error (.embeddingError "Embeddings have not been generated. Please call the embed() method first."),
       none) :=
  ⟨rfl, rfl, rfl, C6_generate_before_embed_blocked sNoEmb chat0 "hi" 10 [] noEmbRet rfl rfl rfl⟩

/-- C7: a RAG generate call that passes its checks sends exactly three
messages — system, then the user prompt verbatim, then an
assistant-role message carrying `retrieve(userPrompt)`. -/
theorem C7_rag_three_messages (s : WrapperState) (chat : GenRequest → ChatResult)
    (userPrompt : String) (maxTokens : Nat) (kwargs : Kwargs) (r : Retriever)
    (hclient : s.hasClient = true) (hattr : s.retrieverAttr = some (some r))
    (hemb : r.hasEmbedding = true) :
    ∃ req, (generate s chat userPrompt true maxTokens kwargs).2 = some req ∧
      req.messages =
        [ { role := "system", content := systemContent s.systemPrompt kwargs },
          { role := "user", content := some userPrompt },
          { role := "assistant", content := some (r.retrieve userPrompt) } ] := by
  have hc : checkClient s = .ok () := by simp [checkClient, hclient]
  have hr : checkRetriever s = .ok () := by simp [checkRetriever, hattr]
  have he : checkEmbeddings s = .ok () := by simp [checkEmbeddings, hr, hattr, hemb]
  unfold generate
  rw [hc, hr, he, hattr]
  exact ⟨_, rfl, rfl⟩

/-- Witness for C7 at a concrete ready state. -/
theorem C7_rag_three_messages_witness :
    sReady.hasClient = true ∧ sReady.retrieverAttr = some (some goodRet) ∧
    goodRet.hasEmbedding = true ∧
    (∃ req, (generate sReady chat0 "hi" true 10 []).2 = some req ∧
      req.messages =
        [ { role := "system", content := systemContent sReady.systemPrompt [] },
          { role := "user", content := some "hi" },
          { role := "assistant", content := some (goodRet.retrieve "hi") } ]) :=
  ⟨rfl, rfl, rfl, C7_rag_three_messages sReady chat0 "hi" 10 [] goodRet rfl rfl rfl⟩

/-- C8: a non-RAG generate call sends exactly the system and user
messages, in that order, and returns one normalized choice per provider
completion. -/
theorem C8_non_rag_request (s : WrapperState) (chat : GenRequest → ChatResult)
    (userPrompt : String) (maxTokens : Nat) (kwargs : Kwargs)
    (hclient : s.hasClient = true) :
    ∃ req resp, generate s chat userPrompt false maxTokens kwargs = (.ok resp, some req) ∧
      req.messages =
        [ { role := "system", content := systemContent s.systemPrompt kwargs },
          { role := "user", content := some userPrompt } ] ∧
      resp.choices.length = (chat req).choices.length := by
  have hc : checkClient s = .ok () := by simp [checkClient, hclient]
  unfold generate
  rw [hc]
  refine ⟨_, _, rfl, rfl, ?_⟩
  simp [mkGenResponse]

/-- A provider chat endpoint returning two completions. -/
def chat1 : GenRequest → ChatResult :=
  fun _ =>
    { choices := [ { message := { content := "first answer" } },
                   { message := { content := "second answer" } } ],
      usage := { promptTokens := 3, completionTokens := 4, totalTokens := 7 } }

/-- Witness for C8 at a concrete call with two completions. -/
theorem C8_non_rag_request_witness :
    s0.hasClient = true ∧
    (∃ req resp, generate s0 chat1 "hi" false 10 [] = (.ok resp, some req) ∧
      req.messages =
        [ { role := "system", content := systemContent s0.systemPrompt [] },
          { role := "user", content := some "hi" } ] ∧
      resp.choices.length = (chat1 req).choices.length) :=
  ⟨rfl, C8_non_rag_request s0 chat1 "hi" 10 [] rfl⟩

/-- C9: a `system_prompt` keyword option is used twice — it becomes the
system message content and it also stays, unmodified, among the
pass-through options of the same provider call. -/
theorem C9_system_prompt_dual_use (s : WrapperState) (chat : GenRequest → ChatResult)
    (userPrompt : String) (isRag : Bool) (maxTokens : Nat) (kwargs : Kwargs)
    (v : Option String) (req : GenRequest)
    (hk : List.lookup "system_prompt" kwargs = some v)
    (hreq : (generate s chat userPrompt isRag maxTokens kwargs).2 = some req) :
    req.messages.head? = some { role := "system", content := v } ∧
    req.kwargs = kwargs ∧
    List.lookup "system_prompt" req.kwargs = some v := by
  have h := generate_req_shape s chat userPrompt isRag maxTokens kwargs req hreq
  refine ⟨?_, h.2.1, ?_⟩
  · rw [h.1, systemContent_eq, hk]
  · rw [h.2.1, hk]

/-- Witness for C9 at a concrete call. -/
theorem C9_system_prompt_dual_use_witness :
    List.lookup "system_prompt" [("system_prompt", (some "kw-prompt" : Option String))] =
      some (some "kw-prompt") ∧
    (generate s0 chat1 "bye" false 10 [("system_prompt", some "kw-prompt")]).2 =
      some { model := none,
             messages := [ { role := "system", content := some "kw-prompt" },
                           { role := "user", content := some "bye" } ],
             maxTokens := 10, kwargs := [("system_prompt", some "kw-prompt")] } ∧
    ({ model := none,
       messages := [ { role := "system", content := some "kw-prompt" },
                     { role := "user", content := some "bye" } ],
       maxTokens := 10,
       kwargs := [("system_prompt", some "kw-prompt")] : GenRequest }).messages.head? =
      some { role := "system", content := some "kw-prompt" } :=
  ⟨rfl, rfl,
   (C9_system_prompt_dual_use s0 chat1 "bye" false 10 [("system_prompt", some "kw-prompt")]
     (some "kw-prompt") _ rfl rfl).1⟩

end HooRAGLib
